import Mathlib

/-!
Shallow embedding of the record validation and batch-ingestion pipeline of
`scripts/download_GBIF.py` (the Record Validator & Batch Loader of the spec),
together with the coordinate mask of `scripts/process_haedat.py` where needed
for context.  Python values are modelled by an explicit inductive type;
machine floats that can arise in the data (JSON-derived DataFrame cells) are
finite and are carried as exact rationals, with the separate NaN cell marker
that pandas introduces for missing values.  Fallible Python operations are
modelled with `Option`/`Except`.
-/

namespace GeoApp

/-- The value universe of one DataFrame cell as seen by the cleaning code:
Python `None`, the pandas NaN missing-value marker, a string, a finite float
(JSON numbers are finite; carried as an exact rational — IEEE rounding is not
modelled, no claim depends on the numeric value), or an int. -/
inductive RawValue
  | none
  | nan
  | str (s : String)
  | float (q : Rat)
  | int (n : Int)
deriving DecidableEq

/-- A Python float value as produced by `float(...)`: finite, signed
infinity, or NaN. -/
inductive PyFloat
  | finite (q : Rat)
  | inf (neg : Bool)
  | nan
deriving DecidableEq

/-- A typed value stored in a Clean Record field. -/
inductive PyVal
  | str (s : String)
  | float (f : PyFloat)
  | int (n : Int)
deriving DecidableEq

/-- Python exception classes relevant to the conversions in the script. -/
inductive PyErr
  | valueError
  | typeError
  | overflowError
deriving DecidableEq

/-- The optional `convert_func` argument of `safe_convert`: the script passes
either nothing, `float`, or `int`. -/
inductive Conv
  | toFloat
  | toInt
deriving DecidableEq

/-- Model of `pd.isna` on the cell universe: true exactly on `None` and NaN. -/
def pyIsNa : RawValue → Bool
  | RawValue.none => true
  | RawValue.nan => true
  | _ => false

/-- Model of the Python test `value is None`. -/
def isPyNone : RawValue → Bool
  | RawValue.none => true
  | _ => false

/-- Characters treated as whitespace by Python's `float`/`int` string
conversion (ASCII whitespace; exotic Unicode whitespace not modelled). -/
def pyWs (c : Char) : Bool :=
  c = ' ' || c = '\t' || c = '\n' || c = '\r' || c = '\x0b' || c = '\x0c'

/-- Strip leading and trailing whitespace from a character list. -/
def trimWs (l : List Char) : List Char :=
  ((l.dropWhile pyWs).reverse.dropWhile pyWs).reverse

/-- Numeric value of one ASCII digit character. -/
def digitVal (c : Char) : Nat := c.toNat - 48

/-- Numeric value of a digit string. -/
def digitsVal (l : List Char) : Nat :=
  l.foldl (fun a c => a * 10 + digitVal c) 0

/-- Model of `str.lower` (ASCII case folding; the inputs the script compares
against are ASCII). -/
def pyLower (s : String) : String := String.mk (s.data.map Char.toLower)

/-- Model of Python `str` on a finite float value. For integral floats this
matches Python exactly (e.g. `999.0`); for non-integral values Python prints a
shortest round-trip decimal, rendered here as `num/den` instead — no claim
depends on the exact rendering, only on the fact that it always contains
digit characters and so is never one of the null markers. -/
def pyFloatRepr (q : Rat) : String :=
  if q.den = 1 then toString q.num ++ ".0"
  else toString q.num ++ "/" ++ toString q.den

/-- Model of Python `str(value)` on the cell universe. -/
def pyStr : RawValue → String
  | RawValue.none => "None"
  | RawValue.nan => "nan"
  | RawValue.str s => s
  | RawValue.float q => pyFloatRepr q
  | RawValue.int n => toString n

/-- The null-marker list `['nan', 'none', '']` of `safe_convert` and
`safe_convert_date`. -/
def nullMarkers : List String := ["nan", "none", ""]

/-- Parse an optional-sign digit string as an integer, the tail of Python
`int(str)` after whitespace stripping (digit-grouping underscores and
non-ASCII digits not modelled). -/
def digitsToInt (ds : List Char) (neg : Bool) : Option Int :=
  if !ds.isEmpty && ds.all Char.isDigit then
    some (if neg then -(digitsVal ds : Int) else (digitsVal ds : Int))
  else Option.none

/-- Model of Python `int` applied to a string. -/
def pyIntOfString (s : String) : Option Int :=
  match trimWs s.data with
  | '+' :: ds => digitsToInt ds false
  | '-' :: ds => digitsToInt ds true
  | ds => digitsToInt ds false

/-- Exponent suffix of a float literal: empty, or `e`/`E` with an optional
sign and at least one digit. -/
def parseExp : List Char → Option Int
  | [] => some 0
  | c :: rest =>
    if c == 'e' || c == 'E' then
      match rest with
      | '+' :: ds =>
        if !ds.isEmpty && ds.all Char.isDigit then some ((digitsVal ds : Int)) else Option.none
      | '-' :: ds =>
        if !ds.isEmpty && ds.all Char.isDigit then some (-(digitsVal ds : Int)) else Option.none
      | ds =>
        if !ds.isEmpty && ds.all Char.isDigit then some ((digitsVal ds : Int)) else Option.none
    else Option.none

/-- Exact value of `ip . fp` as a rational. -/
def mantissaVal (ip fp : List Char) : Rat :=
  (digitsVal ip : Rat) + (digitsVal fp : Rat) / ((10 : Rat) ^ fp.length)

/-- Decimal float literal: `digits [. digits] [exp]` or `. digits [exp]`,
with at least one mantissa digit. -/
def parseNumber (l : List Char) : Option Rat :=
  let ip := l.takeWhile Char.isDigit
  let r1 := l.dropWhile Char.isDigit
  match r1 with
  | '.' :: r2 =>
    let fp := r2.takeWhile Char.isDigit
    let r3 := r2.dropWhile Char.isDigit
    if ip.isEmpty && fp.isEmpty then Option.none
    else
      match parseExp r3 with
      | some e => some (mantissaVal ip fp * (10 : Rat) ^ e)
      | Option.none => Option.none
  | _ =>
    if ip.isEmpty then Option.none
    else
      match parseExp r1 with
      | some e => some (mantissaVal ip [] * (10 : Rat) ^ e)
      | Option.none => Option.none

/-- Unsigned part of Python `float(str)`: case-insensitive `inf`, `infinity`,
`nan`, or a decimal literal. -/
def parseUnsignedFloat (l : List Char) (neg : Bool) : Option PyFloat :=
  let low := l.map Char.toLower
  if low == ['i', 'n', 'f'] || low == ['i', 'n', 'f', 'i', 'n', 'i', 't', 'y'] then
    some (PyFloat.inf neg)
  else if low == ['n', 'a', 'n'] then some PyFloat.nan
  else
    match parseNumber l with
    | some q => some (PyFloat.finite (if neg then -q else q))
    | Option.none => Option.none

/-- Model of Python `float` applied to a string: strip whitespace, optional
sign, then `inf`/`infinity`/`nan` or a decimal literal (overflow of huge
literals to infinity and digit-grouping underscores not modelled). -/
def pyFloatOfString (s : String) : Option PyFloat :=
  match trimWs s.data with
  | '+' :: r => parseUnsignedFloat r false
  | '-' :: r => parseUnsignedFloat r true
  | r => parseUnsignedFloat r false

/-- Truncation of a rational toward zero, the behaviour of Python `int` on a
finite float. -/
def ratTrunc (q : Rat) : Int := if 0 ≤ q then ⌊q⌋ else ⌈q⌉

/-- CPython `float(int)` raises an uncaught `OverflowError` when the
round-half-even conversion exceeds the largest double: exactly when
`|n| ≥ 2^1024 - 2^970`, the midpoint above the largest finite double
`2^1024 - 2^971`, which rounds up and out of range. -/
def floatOverflows (n : Int) : Bool := 2 ^ 1024 - 2 ^ 970 ≤ n.natAbs

/-- Model of Python `float(value)` on the cell universe. `float(None)` raises
`TypeError`; a non-numeric string raises `ValueError`; an int whose magnitude
exceeds the double range raises `OverflowError` — the one exception class the
script's `except (ValueError, TypeError)` does not catch.  (For in-range
values the result is kept as an exact rational; IEEE rounding of the success
value is not modelled, no claim depends on it.) -/
def pyFloatFn : RawValue → Except PyErr PyVal
  | RawValue.none => Except.error PyErr.typeError
  | RawValue.nan => Except.ok (PyVal.float PyFloat.nan)
  | RawValue.float q => Except.ok (PyVal.float (PyFloat.finite q))
  | RawValue.int n =>
    if floatOverflows n then Except.error PyErr.overflowError
    else Except.ok (PyVal.float (PyFloat.finite (n : Rat)))
  | RawValue.str s =>
    match pyFloatOfString s with
    | some f => Except.ok (PyVal.float f)
    | Option.none => Except.error PyErr.valueError

/-- Model of Python `int(value)` on the cell universe. `int(None)` raises
`TypeError`; `int(nan)` and a non-integer string raise `ValueError`. -/
def pyIntFn : RawValue → Except PyErr PyVal
  | RawValue.none => Except.error PyErr.typeError
  | RawValue.nan => Except.error PyErr.valueError
  | RawValue.float q => Except.ok (PyVal.int (ratTrunc q))
  | RawValue.int n => Except.ok (PyVal.int n)
  | RawValue.str s =>
    match pyIntOfString s with
    | some n => Except.ok (PyVal.int n)
    | Option.none => Except.error PyErr.valueError

/-- Dispatch of the `convert_func` argument. -/
def convApply : Conv → RawValue → Except PyErr PyVal
  | Conv.toFloat => pyFloatFn
  | Conv.toInt => pyIntFn

/-- The one input/conversion pair on which an exception escapes
`safe_convert`: an int cell whose magnitude overflows `float`. -/
def overflowInput : RawValue → Option Conv → Bool
  | RawValue.int n, some Conv.toFloat => floatOverflows n
  | _, _ => false

/-- The `value` pass-through of `safe_convert` when no `convert_func` is
given (this branch cannot raise). -/
def passThrough : RawValue → Option PyVal
  | RawValue.none => Option.none
  | RawValue.nan => some (PyVal.float PyFloat.nan)
  | RawValue.str s => some (PyVal.str s)
  | RawValue.float q => some (PyVal.float (PyFloat.finite q))
  | RawValue.int n => some (PyVal.int n)

/-- Embedding of `safe_convert` (`download_GBIF.py`, lines 75-81), with the
`try/except (ValueError, TypeError)` made explicit: the outer `Except` is an
exception escaping the function, the inner `Option` is the returned value
(`Option.none` = Python `None`). -/
def safe_convert_raw (value : RawValue) (convert_func : Option Conv) :
    Except PyErr (Option PyVal) :=
  if pyIsNa value || isPyNone value || nullMarkers.contains (pyLower (pyStr value)) then
    Except.ok Option.none
  else
    match convert_func with
    | some c =>
      match convApply c value with
      | Except.ok v => Except.ok (some v)
      | Except.error e =>
        if e = PyErr.valueError || e = PyErr.typeError then Except.ok Option.none
        else Except.error e
    | Option.none => Except.ok (passThrough value)

/-- The value view of `safe_convert` used by the record-building loop (the
error branch is unreachable, as proved for claim C5). -/
def safe_convert (value : RawValue) (convert_func : Option Conv) : Option PyVal :=
  match safe_convert_raw value convert_func with
  | Except.ok r => r
  | Except.error _ => Option.none

/-- Model of `str.replace('Z', '+00:00')`: every `'Z'` is replaced by the
six characters `+00:00`. -/
def replaceZ (s : String) : String :=
  String.mk (s.data.flatMap fun c => if c = 'Z' then ['+', '0', '0', ':', '0', '0'] else [c])

/-- Gregorian leap-year test, as used by `datetime`. -/
def isLeap (y : Nat) : Bool :=
  (y % 4 == 0 && y % 100 != 0) || y % 400 == 0

/-- Days in a month, as validated by the `datetime` constructor. -/
def daysInMonth (y m : Nat) : Nat :=
  if m == 2 then (if isLeap y then 29 else 28)
  else if m == 4 || m == 6 || m == 9 || m == 11 then 30
  else 31

/-- Model of CPython `_parse_isoformat_date` plus the `datetime` range checks:
exactly `YYYY-MM-DD` with a valid calendar date and year at least 1 (the
leniency of `int()` toward inner whitespace/signs inside the digit fields is
not modelled). -/
def parseDate10 : List Char → Option (Nat × Nat × Nat)
  | [y1, y2, y3, y4, h1, m1, m2, h2, d1, d2] =>
    if y1.isDigit && y2.isDigit && y3.isDigit && y4.isDigit && h1 == '-' &&
        m1.isDigit && m2.isDigit && h2 == '-' && d1.isDigit && d2.isDigit then
      let y := digitVal y1 * 1000 + digitVal y2 * 100 + digitVal y3 * 10 + digitVal y4
      let m := digitVal m1 * 10 + digitVal m2
      let d := digitVal d1 * 10 + digitVal d2
      if 1 ≤ y && 1 ≤ m && m ≤ 12 && 1 ≤ d && d ≤ daysInMonth y m then some (y, m, d)
      else Option.none
    else Option.none
  | _ => Option.none

/-- Fractional-second component: exactly 3 or 6 digits, scaled to
microseconds. -/
def fracVal (l : List Char) : Option Nat :=
  if l.all Char.isDigit then
    if l.length = 3 then some (digitsVal l * 1000)
    else if l.length = 6 then some (digitsVal l)
    else Option.none
  else Option.none

/-- Model of CPython `_parse_hh_mm_ss_ff`: `HH[:MM[:SS[.fff or .ffffff]]]`
returning (hour, minute, second, microsecond); no range checks here, they
belong to the `datetime`/`timedelta` constructors. -/
def parseHMSF : List Char → Option (Nat × Nat × Nat × Nat)
  | [h1, h2] =>
    if h1.isDigit && h2.isDigit then some (digitVal h1 * 10 + digitVal h2, 0, 0, 0)
    else Option.none
  | [h1, h2, c1, m1, m2] =>
    if h1.isDigit && h2.isDigit && c1 == ':' && m1.isDigit && m2.isDigit then
      some (digitVal h1 * 10 + digitVal h2, digitVal m1 * 10 + digitVal m2, 0, 0)
    else Option.none
  | [h1, h2, c1, m1, m2, c2, s1, s2] =>
    if h1.isDigit && h2.isDigit && c1 == ':' && m1.isDigit && m2.isDigit && c2 == ':' &&
        s1.isDigit && s2.isDigit then
      some (digitVal h1 * 10 + digitVal h2, digitVal m1 * 10 + digitVal m2,
        digitVal s1 * 10 + digitVal s2, 0)
    else Option.none
  | h1 :: h2 :: c1 :: m1 :: m2 :: c2 :: s1 :: s2 :: c3 :: rest =>
    if h1.isDigit && h2.isDigit && c1 == ':' && m1.isDigit && m2.isDigit && c2 == ':' &&
        s1.isDigit && s2.isDigit && c3 == '.' then
      match fracVal rest with
      | some f =>
        some (digitVal h1 * 10 + digitVal h2, digitVal m1 * 10 + digitVal m2,
          digitVal s1 * 10 + digitVal s2, f)
      | Option.none => Option.none
    else Option.none
  | _ => Option.none

/-- Range checks the `datetime` constructor applies to the time components. -/
def timeCompsOk (t : Nat × Nat × Nat × Nat) : Bool :=
  t.1 ≤ 23 && t.2.1 ≤ 59 && t.2.2.1 ≤ 59

/-- The `timezone` constructor accepts a strict offset below 24 hours (in
microseconds). -/
def offsetOk (t : Nat × Nat × Nat × Nat) : Bool :=
  t.1 * 3600000000 + t.2.1 * 60000000 + t.2.2.1 * 1000000 + t.2.2.2 < 86400000000

/-- Position where CPython `_parse_isoformat_time` splits off the timezone:
the first `'-'` if any, else the first `'+'` if any. -/
def tzIndex (l : List Char) : Option Nat :=
  match l.findIdx? (fun c => c == '-') with
  | some i => some i
  | Option.none => l.findIdx? (fun c => c == '+')

/-- Model of CPython `_parse_isoformat_time`: time components, optionally
followed by a sign and a timezone string of length 5, 8 or 15. -/
def parseIsoTime (l : List Char) : Bool :=
  match tzIndex l with
  | Option.none =>
    match parseHMSF l with
    | some t => timeCompsOk t
    | Option.none => false
  | some i =>
    (match parseHMSF (l.take i) with
     | some t => timeCompsOk t
     | Option.none => false) &&
    ((l.drop (i + 1)).length == 5 || (l.drop (i + 1)).length == 8 ||
      (l.drop (i + 1)).length == 15) &&
    (match parseHMSF (l.drop (i + 1)) with
     | some t => offsetOk t
     | Option.none => false)

/-- Model of `datetime.fromisoformat` succeeding, CPython 3.7-3.10 semantics:
the first 10 characters must form a valid `YYYY-MM-DD`; everything from
character 11 on, when non-empty, must be a valid time string; the separator
character at index 10 is never inspected (a quirk of those versions). -/
def fromisoOk (s : String) : Bool :=
  match parseDate10 (s.data.take 10) with
  | Option.none => false
  | some _ =>
    let tstr := s.data.drop 11
    if tstr.isEmpty then true else parseIsoTime tstr

/-- The date-range step of `safe_convert_date` (lines 90-92): if the string
contains `'/'`, keep `split('/')[0]`, the part before the first one. -/
def splitSlash (s : String) : String :=
  if s.data.contains '/' then String.mk (s.data.takeWhile fun c => ¬ c = '/') else s

/-- The over-long-timestamp step of `safe_convert_date` (lines 94-96): when
the string contains `'T'` and is longer than 19 characters, keep the first
19. -/
def truncTime (s : String) : String :=
  if s.data.contains 'T' && decide (19 < s.length) then String.mk (s.data.take 19) else s

/-- The validation step of `safe_convert_date` (lines 98-104): return the
string when `fromisoformat` accepts it after `'Z'`-replacement, else null. -/
def validateIso (s : String) : Option String :=
  if fromisoOk (replaceZ s) then some s else Option.none

/-- Embedding of `safe_convert_date` (`download_GBIF.py`, lines 83-104). -/
def safe_convert_date (date_value : RawValue) : Option String :=
  if pyIsNa date_value || isPyNone date_value ||
      nullMarkers.contains (pyLower (pyStr date_value)) then
    Option.none
  else
    validateIso (truncTime (splitSlash (pyStr date_value)))

/-- One row of source-provider data (a Raw Record): the fields the script
reads with `row.get`; a missing column yields Python `None`, i.e.
`RawValue.none`. -/
structure RawRecord where
  scientificName : RawValue
  species : RawValue
  genus : RawValue
  family : RawValue
  order : RawValue
  decimalLatitude : RawValue
  decimalLongitude : RawValue
  year : RawValue
  month : RawValue
  day : RawValue
  eventDate : RawValue
deriving DecidableEq

/-- One validated, typed row (a Clean Record), as built by the record dict of
lines 109-121. -/
structure CleanRecord where
  scientific_name : Option PyVal
  species : Option PyVal
  genus : Option PyVal
  family : Option PyVal
  order : Option PyVal
  decimal_latitude : Option PyVal
  decimal_longitude : Option PyVal
  year : Option PyVal
  month : Option PyVal
  day : Option PyVal
  event_date : Option String
deriving DecidableEq

/-- Embedding of the record dict construction (lines 109-121). -/
def mkRecord (row : RawRecord) : CleanRecord where
  scientific_name := safe_convert row.scientificName Option.none
  species := safe_convert row.species Option.none
  genus := safe_convert row.genus Option.none
  family := safe_convert row.family Option.none
  order := safe_convert row.order Option.none
  decimal_latitude := safe_convert row.decimalLatitude (some Conv.toFloat)
  decimal_longitude := safe_convert row.decimalLongitude (some Conv.toFloat)
  year := safe_convert row.year (some Conv.toInt)
  month := safe_convert row.month (some Conv.toInt)
  day := safe_convert row.day (some Conv.toInt)
  event_date := safe_convert_date row.eventDate

/-- Embedding of the record validation loop (lines 107-125): build each Clean
Record and append it only when both coordinates are non-null. -/
def validRecords (rows : List RawRecord) : List CleanRecord :=
  rows.filterMap fun row =>
    let record := mkRecord row
    if record.decimal_latitude.isSome && record.decimal_longitude.isSome then some record
    else Option.none

/-- The exception raised by a failing store insert (`download_GBIF.py` line
135); the script only re-surfaces it, so the message is opaque to the
pipeline. -/
structure StoreErr where
  message : String
deriving DecidableEq

/-- The batch insert loop of lines 130-139, as a recursion on the remaining
record list.  `insert` is the destination store; it is given the 0-based
batch index and the batch.  `bs1 + 1` is the batch size.  The result is the
list of batches actually submitted (in submission order), the final
`total_inserted`, and the exception that escaped the loop, if any.  Note the
running total is incremented only after a successful insert, so a failing
batch leaves it at the previous value. -/
def batchLoopGo {α : Type} (insert : Nat → List α → Except StoreErr Unit) (bs1 : Nat)
    (records : List α) (idx total : Nat) : List (List α) × Nat × Option StoreErr :=
  match records with
  | [] => ([], total, Option.none)
  | x :: xs =>
    let batch := (x :: xs).take (bs1 + 1)
    match insert idx batch with
    | Except.error e => ([batch], total, some e)
    | Except.ok _ =>
      let r := batchLoopGo insert bs1 (xs.drop bs1) (idx + 1) (total + batch.length)
      (batch :: r.1, r.2.1, r.2.2)
termination_by records.length
decreasing_by
  simp only [List.length_drop, List.length_cons]
  exact Nat.lt_succ_of_le (Nat.sub_le _ _)

/-- Embedding of the batch loader (`for i in range(0, len(records),
batch_size)` with slicing, lines 130-139), meaningful for `batch_size ≥ 1`
(the script fixes it to 100). -/
def batchLoop {α : Type} (insert : Nat → List α → Except StoreErr Unit)
    (batch_size : Nat) (records : List α) : List (List α) × Nat × Option StoreErr :=
  batchLoopGo insert (batch_size - 1) records 0 0

/-- The Raw Record of spec §8.2: latitude `"abc"`, longitude `"10.0"`, all
other source fields absent. -/
def abcRow : RawRecord where
  scientificName := RawValue.none
  species := RawValue.none
  genus := RawValue.none
  family := RawValue.none
  order := RawValue.none
  decimalLatitude := RawValue.str "abc"
  decimalLongitude := RawValue.str "10.0"
  year := RawValue.none
  month := RawValue.none
  day := RawValue.none
  eventDate := RawValue.none

/-- A Raw Record whose latitude `999.0` lies far outside `[-90, 90]` while
both coordinates convert to floats. -/
def row999 : RawRecord where
  scientificName := RawValue.none
  species := RawValue.none
  genus := RawValue.none
  family := RawValue.none
  order := RawValue.none
  decimalLatitude := RawValue.float 999
  decimalLongitude := RawValue.float 10
  year := RawValue.none
  month := RawValue.none
  day := RawValue.none
  eventDate := RawValue.none

/-- A concrete Clean Record (all fields null) used to build batch-loader
inputs of a given length. -/
def sampleClean : CleanRecord where
  scientific_name := Option.none
  species := Option.none
  genus := Option.none
  family := Option.none
  order := Option.none
  decimal_latitude := Option.none
  decimal_longitude := Option.none
  year := Option.none
  month := Option.none
  day := Option.none
  event_date := Option.none

/-! ## Helper lemmas -/

theorem convApply_cases (c : Conv) (v : RawValue) :
    (∃ w, convApply c v = Except.ok w) ∨
    convApply c v = Except.error PyErr.valueError ∨
    convApply c v = Except.error PyErr.typeError ∨
    convApply c v = Except.error PyErr.overflowError := by
  cases c <;> cases v <;>
    simp only [convApply, pyFloatFn, pyIntFn] <;>
    first
      | (split <;> simp)
      | simp

theorem validateIso_some {s r : String} (h : validateIso s = some r) :
    r = s ∧ fromisoOk (replaceZ s) = true := by
  unfold validateIso at h
  split at h
  · cases h; exact ⟨rfl, by assumption⟩
  · cases h

theorem safe_convert_date_some {v : RawValue} {r : String}
    (h : safe_convert_date v = some r) :
    r = truncTime (splitSlash (pyStr v)) ∧ fromisoOk (replaceZ r) = true := by
  unfold safe_convert_date at h
  split at h
  · cases h
  · obtain ⟨h1, h2⟩ := validateIso_some h
    exact ⟨h1, h1 ▸ h2⟩

/-! ## Claim theorems -/

/-- C8: when the validated output contains zero Clean Records, the batch
loop performs zero insert calls (the submitted-batch trace is empty) and
reports a final total of 0 with no error, for every destination store. -/
theorem c8_empty_input (insert : Nat → List CleanRecord → Except StoreErr Unit) :
    batchLoop insert 100 [] = ([], 0, Option.none) := by
  simp [batchLoop, batchLoopGo]

/-- C3: for every raw field value that is missing (`None` or NaN) or whose
string form is, case-insensitively, empty, `"nan"` or `"none"`, `safe_convert`
returns null without raising, whichever conversion is requested. -/
theorem c3_null_markers (v : RawValue)
    (h : v = RawValue.none ∨ v = RawValue.nan ∨
      nullMarkers.contains (pyLower (pyStr v)) = true) :
    ∀ c : Option Conv, safe_convert_raw v c = Except.ok Option.none := by
  intro c
  rcases h with rfl | rfl | h
  · rfl
  · rfl
  · have h' : pyLower (pyStr v) ∈ nullMarkers := List.elem_iff.mp h
    simp [safe_convert_raw, h']

/-- Witness for C3 at the concrete value `"NONE"` under the `int`
conversion. -/
theorem c3_null_markers_witness :
    (RawValue.str "NONE" = RawValue.none ∨ RawValue.str "NONE" = RawValue.nan ∨
      nullMarkers.contains (pyLower (pyStr (RawValue.str "NONE"))) = true) ∧
    safe_convert_raw (RawValue.str "NONE") (some Conv.toInt) = Except.ok Option.none :=
  ⟨Or.inr (Or.inr (by decide)),
    c3_null_markers (RawValue.str "NONE") (Or.inr (Or.inr (by decide))) (some Conv.toInt)⟩

theorem convApply_overflow (c : Conv) (v : RawValue)
    (h : convApply c v = Except.error PyErr.overflowError) :
    overflowInput v (some c) = true := by
  cases c <;> cases v <;>
    simp only [convApply, pyFloatFn, pyIntFn] at h <;>
    first
      | (split at h <;> simp_all [overflowInput])
      | simp_all [overflowInput]

set_option maxRecDepth 16384 in
/-- C5 counterexample: `float()` on the int `2 ^ 1024` raises
`OverflowError`, which `except (ValueError, TypeError)` does not catch, so
the exception escapes `safe_convert` instead of degrading to null. -/
theorem c5_counterexample :
    safe_convert_raw (RawValue.int (Int.ofNat (2 ^ 1024))) (some Conv.toFloat) =
      Except.error PyErr.overflowError := by
  rfl

/-- C5 (amended): on every raw field value and requested conversion other
than the single escaping case — an int of magnitude at least
`2^1024 - 2^970` under the float conversion, whose `OverflowError` is not
caught — `safe_convert` never raises: every conversion failure degrades to
null. -/
theorem c5_never_raises (v : RawValue) (c : Option Conv)
    (h : overflowInput v c = false) :
    ∃ r : Option PyVal, safe_convert_raw v c = Except.ok r := by
  unfold safe_convert_raw
  split
  · exact ⟨Option.none, rfl⟩
  · cases c with
    | none => exact ⟨passThrough v, rfl⟩
    | some cv =>
      rcases convApply_cases cv v with ⟨w, hw⟩ | hv | hv | hv
      · exact ⟨some w, by simp [hw]⟩
      · exact ⟨Option.none, by simp [hv]⟩
      · exact ⟨Option.none, by simp [hv]⟩
      · rw [convApply_overflow cv v hv] at h
        cases h

/-- Witness for the amended C5 at the non-numeric string `"abc"` under the
float conversion: the `ValueError` is caught and null is returned. -/
theorem c5_never_raises_witness :
    overflowInput (RawValue.str "abc") (some Conv.toFloat) = false ∧
    ∃ r : Option PyVal,
      safe_convert_raw (RawValue.str "abc") (some Conv.toFloat) = Except.ok r :=
  ⟨by decide, c5_never_raises (RawValue.str "abc") (some Conv.toFloat) (by decide)⟩

/-- C4 counterexample: on the over-long timestamp the Date Normalizer does
not resolve to null — the 19-character truncation yields a valid timestamp. -/
theorem c4_counterexample :
    safe_convert_date (RawValue.str "2024-06-01T12:00:00.123456Z") ≠ Option.none := by
  decide

/-- C4 (amended): the Date Normalizer truncates the over-long timestamp
`"2024-06-01T12:00:00.123456Z"` to its first 19 characters before
validation, and that truncation, `"2024-06-01T12:00:00"`, is a valid
ISO-8601 timestamp and is returned. -/
theorem c4_truncation_valid :
    safe_convert_date (RawValue.str "2024-06-01T12:00:00.123456Z") =
      some (String.mk (("2024-06-01T12:00:00.123456Z" : String).data.take 19)) ∧
    String.mk (("2024-06-01T12:00:00.123456Z" : String).data.take 19) =
      "2024-06-01T12:00:00" := by
  constructor <;> decide

/-- C10: whenever the Date Normalizer returns a non-null result, that result
is accepted by `datetime.fromisoformat` after replacing `'Z'` with
`"+00:00"`. -/
theorem c10_result_parses (v : RawValue) (r : String)
    (h : safe_convert_date v = some r) : fromisoOk (replaceZ r) = true :=
  (safe_convert_date_some h).2

/-- Witness for C10 at the concrete input `"2024-06-05"`. -/
theorem c10_result_parses_witness :
    safe_convert_date (RawValue.str "2024-06-05") = some "2024-06-05" ∧
    fromisoOk (replaceZ "2024-06-05") = true :=
  ⟨by decide, c10_result_parses (RawValue.str "2024-06-05") "2024-06-05" (by decide)⟩

/-- C2: a Clean Record enters the validated output exactly when both its
latitude and longitude normalize to non-null values (the float conversion of
the source fields succeeds); the record with latitude `"abc"` and longitude
`"10.0"` is dropped, and dropping it has no effect on the rest of the
output. -/
theorem c2_coordinate_filter :
    (∀ rows : List RawRecord,
      validRecords rows =
        (rows.filter fun row =>
          (safe_convert row.decimalLatitude (some Conv.toFloat)).isSome &&
          (safe_convert row.decimalLongitude (some Conv.toFloat)).isSome).map mkRecord) ∧
    validRecords [abcRow] = [] ∧
    (∀ xs ys : List RawRecord,
      validRecords (xs ++ abcRow :: ys) = validRecords xs ++ validRecords ys) := by
  have hchar : ∀ rows : List RawRecord,
      validRecords rows =
        (rows.filter fun row =>
          (safe_convert row.decimalLatitude (some Conv.toFloat)).isSome &&
          (safe_convert row.decimalLongitude (some Conv.toFloat)).isSome).map mkRecord := by
    intro rows
    induction rows with
    | nil => rfl
    | cons a l ih =>
      cases hla : (safe_convert a.decimalLatitude (some Conv.toFloat)).isSome <;>
        cases hlo : (safe_convert a.decimalLongitude (some Conv.toFloat)).isSome <;>
        simp [validRecords, List.filterMap_cons, List.filter_cons, mkRecord, hla, hlo] at ih ⊢ <;>
        exact ih
  refine ⟨hchar, by decide, ?_⟩
  intro xs ys
  have habc : ((fun row =>
      let record := mkRecord row
      if record.decimal_latitude.isSome && record.decimal_longitude.isSome then some record
      else Option.none) abcRow) = Option.none := by decide
  simp only [validRecords, List.filterMap_append, List.filterMap_cons, habc]

/-- C9: the Record Validator applies no range check to coordinates — any Raw
Record whose latitude and longitude both convert to floats is retained,
whatever the numeric values are. -/
theorem c9_no_range_check (row : RawRecord)
    (h1 : (safe_convert row.decimalLatitude (some Conv.toFloat)).isSome = true)
    (h2 : (safe_convert row.decimalLongitude (some Conv.toFloat)).isSome = true) :
    validRecords [row] = [mkRecord row] := by
  simp [validRecords, List.filterMap_cons, mkRecord, h1, h2]

/-- Witness for C9 at latitude `999.0` (outside `[-90, 90]`) and longitude
`10.0`: the record is retained. -/
theorem c9_no_range_check_witness :
    (safe_convert row999.decimalLatitude (some Conv.toFloat)).isSome = true ∧
    (safe_convert row999.decimalLongitude (some Conv.toFloat)).isSome = true ∧
    validRecords [row999] = [mkRecord row999] :=
  ⟨by decide, by decide, c9_no_range_check row999 (by decide) (by decide)⟩

theorem splitSlash_no_slash (s : String) : (splitSlash s).data.contains '/' = false := by
  unfold splitSlash
  split
  · rw [Bool.eq_false_iff]
    intro hc
    have hm := List.mem_takeWhile_imp (List.elem_iff.mp hc)
    simp at hm
  · rename_i h
    simpa using h

theorem truncTime_contains (s : String) (c : Char)
    (h : s.data.contains c = false) : (truncTime s).data.contains c = false := by
  unfold truncTime
  split
  · rw [Bool.eq_false_iff] at h ⊢
    intro hc
    exact h (List.elem_iff.mpr (List.mem_of_mem_take (List.elem_iff.mp hc)))
  · exact h

theorem truncTime_post (s : String) :
    ((truncTime s).data.contains 'T' && decide (19 < (truncTime s).length)) = false := by
  unfold truncTime
  split
  · rename_i h
    have h19 : 19 < s.data.length := of_decide_eq_true ((Bool.and_eq_true _ _).mp h).2
    have hlen : (String.mk (s.data.take 19)).length = 19 := by
      show (s.data.take 19).length = 19
      rw [List.length_take]
      omega
    rw [hlen]
    simp
  · rename_i h
    simpa using h

theorem flatMapZ_id (l : List Char) (h : ∀ c ∈ l, ¬ c = 'Z') :
    (l.flatMap fun c => if c = 'Z' then ['+', '0', '0', ':', '0', '0'] else [c]) = l := by
  induction l with
  | nil => rfl
  | cons a t ih =>
    rw [List.flatMap_cons, if_neg (h a (List.mem_cons_self a t))]
    simp [ih fun c hc => h c (List.mem_cons_of_mem a hc)]

theorem replaceZ_id (s : String) (h : ∀ c ∈ s.data, ¬ c = 'Z') : replaceZ s = s := by
  unfold replaceZ
  rw [flatMapZ_id s.data h]

theorem parseDate10_length {l : List Char} {x : Nat × Nat × Nat}
    (h : parseDate10 l = some x) : l.length = 10 := by
  unfold parseDate10 at h
  split at h
  · simp
  · cases h

theorem fromisoOk_length {s : String} (h : fromisoOk s = true) : 10 ≤ s.data.length := by
  unfold fromisoOk at h
  cases hp : parseDate10 (s.data.take 10) with
  | none => rw [hp] at h; cases h
  | some x =>
    have h10 := parseDate10_length hp
    rw [List.length_take] at h10
    omega

theorem marker_not_iso {r : String} (hmem : pyLower r ∈ nullMarkers) :
    fromisoOk (replaceZ r) = false := by
  have hdata : (pyLower r).data = r.data.map Char.toLower := rfl
  simp only [nullMarkers, List.mem_cons, List.not_mem_nil, or_false] at hmem
  rcases hmem with h | h | h
  · have hd : r.data.map Char.toLower = ("nan" : String).data := by rw [← hdata, h]
    have hlen : r.data.length = 3 := by simpa using congrArg List.length hd
    have hnoZ : ∀ c ∈ r.data, ¬ c = 'Z' := by
      intro c hc hz
      subst hz
      have hmm : Char.toLower 'Z' ∈ ("nan" : String).data := hd ▸ List.mem_map_of_mem _ hc
      revert hmm
      decide
    rw [replaceZ_id r hnoZ]
    cases hfo : fromisoOk r
    · rfl
    · have := fromisoOk_length hfo
      omega
  · have hd : r.data.map Char.toLower = ("none" : String).data := by rw [← hdata, h]
    have hlen : r.data.length = 4 := by simpa using congrArg List.length hd
    have hnoZ : ∀ c ∈ r.data, ¬ c = 'Z' := by
      intro c hc hz
      subst hz
      have hmm : Char.toLower 'Z' ∈ ("none" : String).data := hd ▸ List.mem_map_of_mem _ hc
      revert hmm
      decide
    rw [replaceZ_id r hnoZ]
    cases hfo : fromisoOk r
    · rfl
    · have := fromisoOk_length hfo
      omega
  · have hd : r.data.map Char.toLower = ("" : String).data := by rw [← hdata, h]
    have hlen : r.data.length = 0 := by simpa using congrArg List.length hd
    have hnoZ : ∀ c ∈ r.data, ¬ c = 'Z' := by
      intro c hc hz
      rw [List.length_eq_zero] at hlen
      rw [hlen] at hc
      exact absurd hc (List.not_mem_nil c)
    rw [replaceZ_id r hnoZ]
    cases hfo : fromisoOk r
    · rfl
    · have := fromisoOk_length hfo
      omega

theorem iso_not_marker {r : String} (hok : fromisoOk (replaceZ r) = true) :
    nullMarkers.contains (pyLower r) = false := by
  rw [Bool.eq_false_iff]
  intro hc
  have hfalse := marker_not_iso (List.elem_iff.mp hc)
  rw [hok] at hfalse
  cases hfalse

theorem slash_not_marker {s : String} (hs : s.data.contains '/' = true) :
    nullMarkers.contains (pyLower s) = false := by
  rw [Bool.eq_false_iff]
  intro hc
  have hmem : pyLower s ∈ nullMarkers := List.elem_iff.mp hc
  have hmap : Char.toLower '/' ∈ (pyLower s).data :=
    List.mem_map_of_mem _ (List.elem_iff.mp hs)
  simp only [nullMarkers, List.mem_cons, List.not_mem_nil, or_false] at hmem
  rcases hmem with h | h | h <;> rw [h] at hmap <;> revert hmap <;> decide

/-- C6: on every date string containing `'/'` the Date Normalizer works only
on the substring before the first `'/'` (the rest of the pipeline is applied
to that prefix, and the missing-value check cannot fire on such a string);
in particular `"2024-06-01/2024-06-30"` normalizes to `"2024-06-01"`. -/
theorem c6_slash_prefix :
    (∀ s : String, s.data.contains '/' = true →
      safe_convert_date (RawValue.str s) =
        validateIso (truncTime (String.mk (s.data.takeWhile fun c => ¬ c = '/')))) ∧
    safe_convert_date (RawValue.str "2024-06-01/2024-06-30") = some "2024-06-01" := by
  constructor
  · intro s hs
    have hmem : '/' ∈ s.data := List.elem_iff.mp hs
    have hnm : pyLower s ∉ nullMarkers := fun hm =>
      Bool.eq_false_iff.mp (slash_not_marker hs) (List.elem_iff.mpr hm)
    simp [safe_convert_date, pyStr, pyIsNa, isPyNone, hnm, splitSlash, hmem]
  · decide

/-- Witness for C6 at the concrete range string. -/
theorem c6_slash_prefix_witness :
    ("2024-06-01/2024-06-30" : String).data.contains '/' = true ∧
    safe_convert_date (RawValue.str "2024-06-01/2024-06-30") =
      validateIso (truncTime (String.mk (("2024-06-01/2024-06-30" : String).data.takeWhile
        fun c => ¬ c = '/'))) :=
  ⟨by decide, c6_slash_prefix.1 ("2024-06-01/2024-06-30") (by decide)⟩

/-- C7: the Date Normalizer is idempotent on its own non-null outputs: if it
returns `r` on any input, it returns `r` again on `r`. -/
theorem c7_idempotent (v : RawValue) (r : String)
    (h : safe_convert_date v = some r) :
    safe_convert_date (RawValue.str r) = some r := by
  obtain ⟨hr, hok⟩ := safe_convert_date_some h
  have hns : r.data.contains '/' = false := by
    rw [hr]; exact truncTime_contains _ _ (splitSlash_no_slash _)
  have hpost : (r.data.contains 'T' && decide (19 < r.length)) = false := by
    rw [hr]; exact truncTime_post _
  have hmark : nullMarkers.contains (pyLower r) = false := iso_not_marker hok
  have hsplit : splitSlash r = r := by
    unfold splitSlash; rw [hns]; simp
  have htrunc : truncTime r = r := by
    unfold truncTime; rw [hpost]; simp
  have hnm : pyLower r ∉ nullMarkers := fun hm =>
    Bool.eq_false_iff.mp hmark (List.elem_iff.mpr hm)
  simp [safe_convert_date, pyIsNa, isPyNone, pyStr, hnm, hsplit, htrunc, validateIso, hok]

/-- Witness for C7: `"2024-06-01T12:00:00"` maps to itself. -/
theorem c7_idempotent_witness :
    safe_convert_date (RawValue.str "2024-06-01T12:00:00") = some "2024-06-01T12:00:00" :=
  c7_idempotent (RawValue.str "2024-06-01T12:00:00") "2024-06-01T12:00:00" (by decide)

theorem batchLoopGo_nil {α : Type} (insert : Nat → List α → Except StoreErr Unit)
    (bs1 idx total : Nat) :
    batchLoopGo insert bs1 [] idx total = ([], total, Option.none) := by
  simp [batchLoopGo]

theorem batchLoopGo_step {α : Type} (insert : Nat → List α → Except StoreErr Unit)
    (bs1 : Nat) (l : List α) (hl : l ≠ []) (idx total : Nat) :
    batchLoopGo insert bs1 l idx total =
      match insert idx (l.take (bs1 + 1)) with
      | Except.error e => ([l.take (bs1 + 1)], total, some e)
      | Except.ok _ =>
        (l.take (bs1 + 1) ::
          (batchLoopGo insert bs1 (l.drop (bs1 + 1)) (idx + 1)
            (total + (l.take (bs1 + 1)).length)).1,
         (batchLoopGo insert bs1 (l.drop (bs1 + 1)) (idx + 1)
            (total + (l.take (bs1 + 1)).length)).2) := by
  obtain ⟨x, xs, rfl⟩ := List.exists_cons_of_ne_nil hl
  rw [batchLoopGo]
  cases hins : insert idx (List.take (bs1 + 1) (x :: xs)) <;>
    simp [hins, List.drop_succ_cons]

theorem batchLoopGo_ok {α : Type} (bs1 : Nat) (l : List α) (hl : l ≠ [])
    (idx total : Nat) :
    batchLoopGo (fun _ _ => Except.ok ()) bs1 l idx total =
      (l.take (bs1 + 1) ::
        (batchLoopGo (fun _ _ => Except.ok ()) bs1 (l.drop (bs1 + 1)) (idx + 1)
          (total + (l.take (bs1 + 1)).length)).1,
       (batchLoopGo (fun _ _ => Except.ok ()) bs1 (l.drop (bs1 + 1)) (idx + 1)
          (total + (l.take (bs1 + 1)).length)).2) := by
  rw [batchLoopGo_step _ _ _ hl]

theorem batchLoopGo_fail0 {α : Type} (e : StoreErr) (bs1 : Nat) (l : List α)
    (hl : l ≠ []) (total : Nat) :
    batchLoopGo (fun i _ => if i = 1 then Except.error e else Except.ok ()) bs1 l 0 total =
      (l.take (bs1 + 1) ::
        (batchLoopGo (fun i _ => if i = 1 then Except.error e else Except.ok ()) bs1
          (l.drop (bs1 + 1)) 1 (total + (l.take (bs1 + 1)).length)).1,
       (batchLoopGo (fun i _ => if i = 1 then Except.error e else Except.ok ()) bs1
          (l.drop (bs1 + 1)) 1 (total + (l.take (bs1 + 1)).length)).2) := by
  rw [batchLoopGo_step _ _ _ hl]
  simp

theorem batchLoopGo_fail_at {α : Type} (e : StoreErr) (bs1 : Nat) (l : List α)
    (hl : l ≠ []) (total : Nat) :
    batchLoopGo (fun i _ => if i = 1 then Except.error e else Except.ok ()) bs1 l 1 total =
      ([l.take (bs1 + 1)], total, some e) := by
  rw [batchLoopGo_step _ _ _ hl]
  simp

/-- C1: 250 Clean Records with batch size 100 are split into exactly 3
contiguous batches of sizes 100, 100, 50 submitted in that order; on a store
that fails the second insert, only the first two batches are ever submitted,
the running total stays at 100 (only successful batches count), and the
insert error escapes the loop unretried. -/
theorem c1_batch_split (records : List CleanRecord) (h : records.length = 250)
    (e : StoreErr) :
    batchLoop (fun _ _ => Except.ok ()) 100 records =
      ([records.take 100, (records.drop 100).take 100, records.drop 200], 250, Option.none) ∧
    [records.take 100, (records.drop 100).take 100, records.drop 200].map List.length =
      [100, 100, 50] ∧
    batchLoop (fun i _ => if i = 1 then Except.error e else Except.ok ()) 100 records =
      ([records.take 100, (records.drop 100).take 100], 100, some e) := by
  have hne0 : records ≠ [] := by intro hn; rw [hn] at h; simp at h
  have hd1 : (records.drop 100).length = 150 := by rw [List.length_drop, h]
  have hne1 : records.drop 100 ≠ [] := by intro hn; rw [hn] at hd1; simp at hd1
  have hd2 : (records.drop 200).length = 50 := by rw [List.length_drop, h]
  have hne2 : records.drop 200 ≠ [] := by intro hn; rw [hn] at hd2; simp at hd2
  have hlen1 : (records.take 100).length = 100 := by
    rw [List.length_take, h]; exact min_eq_left (by norm_num)
  have hlen2 : ((records.drop 100).take 100).length = 100 := by
    rw [List.length_take, hd1]; exact min_eq_left (by norm_num)
  have hdd : (records.drop 100).drop 100 = records.drop 200 := by rw [List.drop_drop]
  have htk3 : (records.drop 200).take 100 = records.drop 200 :=
    List.take_of_length_le (by rw [hd2]; omega)
  have hdp3 : (records.drop 200).drop 100 = [] :=
    List.drop_eq_nil_of_le (by rw [hd2]; omega)
  refine ⟨?_, ?_, ?_⟩
  · show batchLoopGo (fun _ _ => Except.ok ()) 99 records 0 0 = _
    rw [batchLoopGo_ok 99 records hne0, show (99 : Nat) + 1 = 100 from rfl, hlen1]
    rw [batchLoopGo_ok 99 _ hne1, show (99 : Nat) + 1 = 100 from rfl, hlen2, hdd]
    rw [batchLoopGo_ok 99 _ hne2, show (99 : Nat) + 1 = 100 from rfl, htk3, hd2, hdp3,
      batchLoopGo_nil]
  · simp [hlen1, hlen2, hd2]
  · show batchLoopGo (fun i _ => if i = 1 then Except.error e else Except.ok ())
      99 records 0 0 = _
    rw [batchLoopGo_fail0 e 99 records hne0, show (99 : Nat) + 1 = 100 from rfl, hlen1]
    rw [batchLoopGo_fail_at e 99 _ hne1, show (99 : Nat) + 1 = 100 from rfl]

/-- Witness for C1 at a concrete list of 250 Clean Records and a concrete
failing store. -/
theorem c1_batch_split_witness :
    (List.replicate 250 sampleClean).length = 250 ∧
    batchLoop (fun i _ => if i = 1 then Except.error (StoreErr.mk "insert failed")
        else Except.ok ()) 100 (List.replicate 250 sampleClean) =
      ([(List.replicate 250 sampleClean).take 100,
        ((List.replicate 250 sampleClean).drop 100).take 100], 100,
       some (StoreErr.mk "insert failed")) :=
  ⟨by rw [List.length_replicate],
    (c1_batch_split (List.replicate 250 sampleClean) (by rw [List.length_replicate])
      (StoreErr.mk "insert failed")).2.2⟩

end GeoApp
